import Mathlib

/-!
Verification of the BetterDataTable query/render pipeline.

The definitions below are a shallow embedding of the JavaScript sources:

* `compareValues`, `QueryEngine.run` (src/core/QueryEngine.js)
* `clamp` (src/core/utils.js)
* `BetterDataTable.#computeVirtualWindow`, `requestRender`, `reload`
  (src/core/BetterDataTable.js)

JavaScript machine numbers are modelled as `Int` (all quantities involved are
integral), strings as Lean `String`, and rows as an arbitrary type `ρ` read
through compiled column accessor functions, exactly the shape `run` consumes
after `setColumns` has compiled the column descriptors.  The locale-dependent
`String.prototype.localeCompare` is kept abstract as an explicit `strCmp`
parameter.  `Array.prototype.sort` (guaranteed stable by ECMA-262) is modelled
by a stable insertion sort.
-/

namespace BDT

/-! ### JavaScript value model -/

/-- A JavaScript primitive value as it can appear in a table cell. -/
inductive JSVal where
  | vNull
  | vUndef
  | vNum (n : Int)
  | vStr (s : String)
  | vBool (b : Bool)
deriving DecidableEq, Repr

/-- Model of `toText` from src/core/utils.js: `null`/`undefined` become `""`,
anything else goes through `String(value)`. -/
def toText : JSVal → String
  | .vNull => ""
  | .vUndef => ""
  | .vNum n => toString n
  | .vStr s => s
  | .vBool b => if b then "true" else "false"

/-- The test `value === null || value === undefined`. -/
def isNullish : JSVal → Bool
  | .vNull => true
  | .vUndef => true
  | _ => false

/-- Model of `String.prototype.includes`: the pattern occurs as a contiguous
substring. -/
def jsIncludes (s pat : String) : Bool :=
  decide (pat.data <:+: s.data)

/-- Model of `String.prototype.toLowerCase`, character by character. -/
def jsToLower (s : String) : String :=
  String.mk (s.data.map Char.toLower)

/-! ### compareValues (src/core/QueryEngine.js, lines 5-30) -/

/-- Model of `compareValues(a, b, direction)` from QueryEngine.js.  `strCmp` stands for
`aText.localeCompare(bText, undefined, { sensitivity: "base", numeric: true })`,
whose outcome depends on the host locale and is therefore kept abstract.
Note `a === b` is the strict-equality check (`null === undefined` is false). -/
def compareValues (strCmp : String → String → Int) (a b : JSVal)
    (direction : String) : Int :=
  if a = b then 0
  else if isNullish a then (if direction = "asc" then 1 else -1)
  else if isNullish b then (if direction = "asc" then -1 else 1)
  else
    match a, b with
    | .vNum x, .vNum y => if direction = "asc" then x - y else y - x
    | a, b =>
      let result := strCmp (toText a) (toText b)
      if direction = "asc" then result else -result

/-! ### QueryEngine (src/core/QueryEngine.js) -/

/-- A column as `run` consumes it, i.e. after `setColumns` has compiled the
accessor into a row → value function and defaulted the flags. -/
structure Column (ρ : Type) where
  id : String
  getValue : ρ → JSVal
  searchable : Bool := true
  sortable : Bool := true

/-- The query engine's own state: compiled columns, the case-sensitivity flag
fixed at construction, and the working row set installed by `setRows`. -/
structure QueryEngine (ρ : Type) where
  columns : List (Column ρ)
  caseSensitive : Bool := false
  rows : List ρ := []

/-- Model of `this.columnById.get(id)`.  The `Map` built in `setColumns` keeps the last
entry for a duplicated key, hence the lookup over the reversed list. -/
def columnById {ρ : Type} (cols : List (Column ρ)) (id : String) :
    Option (Column ρ) :=
  cols.reverse.find? (fun c => c.id == id)

/-- One entry of the `sort` parameter: `{ id, direction }` with the direction
kept as the raw string the code receives. -/
structure SortRule where
  id : String
  direction : String := "asc"
deriving DecidableEq, Repr

/-- The parameter object of `QueryEngine.run`, with the source's defaults. -/
structure RunParams where
  search : String := ""
  sort : List SortRule := []
  page : Int := 0
  pageSize : Int := 25
  pagination : Bool := true

/-- The object returned by `QueryEngine.run`. -/
structure RunResult (ρ : Type) where
  rows : List ρ
  filteredCount : Nat
  totalCount : Nat
  totalPages : Int
  page : Int
deriving Repr

/-- The normalized search needle:
`this.caseSensitive ? toText(search) : toText(search).toLowerCase()`. -/
def searchValue {ρ : Type} (e : QueryEngine ρ) (search : String) : String :=
  if e.caseSensitive then search else jsToLower search

/-- One searchable column matches the needle:
`text.includes(searchValue)` with `text` the (optionally lower-cased)
text-coerced cell value. -/
def columnMatches {ρ : Type} (e : QueryEngine ρ) (c : Column ρ) (row : ρ)
    (sv : String) : Bool :=
  jsIncludes
    (if e.caseSensitive then toText (c.getValue row)
     else jsToLower (toText (c.getValue row))) sv

/-- The check `searchableColumns.some(...)` from the filter loop in `run`. -/
def rowMatches {ρ : Type} (e : QueryEngine ρ) (row : ρ) (sv : String) : Bool :=
  (e.columns.filter (fun c => c.searchable)).any
    (fun c => columnMatches e c row sv)

/-- The `decorated` array built by the filter loop of `run`: each surviving
row paired with its original index (`{ row, index }`, here `(index, row)`).
A non-empty needle keeps a row iff some searchable column matches. -/
def filteredDecorated {ρ : Type} (e : QueryEngine ρ) (p : RunParams) :
    List (Nat × ρ) :=
  e.rows.enum.filter
    (fun ir =>
      if searchValue e p.search = "" then true
      else rowMatches e ir.2 (searchValue e p.search))

/-- The rule part of the sort comparator in `run`: walk the rules, skip
unknown or unsortable columns, return the first non-zero `compareValues`
result, else `0`. -/
def ruleCmp (strCmp : String → String → Int) {ρ : Type} (cols : List (Column ρ))
    (rules : List SortRule) (a b : ρ) : Int :=
  match rules with
  | [] => 0
  | rule :: rest =>
    match columnById cols rule.id with
    | none => ruleCmp strCmp cols rest a b
    | some col =>
      if col.sortable = false then ruleCmp strCmp cols rest a b
      else
        let direction := if rule.direction = "desc" then "desc" else "asc"
        let result := compareValues strCmp (col.getValue a) (col.getValue b) direction
        if result = 0 then ruleCmp strCmp cols rest a b else result

/-- The full comparator passed to `decorated.sort`: the first non-zero rule
comparison decides, otherwise the original-index difference
(`left.index - right.index`). -/
def sortCmp (strCmp : String → String → Int) {ρ : Type} (cols : List (Column ρ))
    (rules : List SortRule) (l r : Nat × ρ) : Int :=
  let c := ruleCmp strCmp cols rules l.2 r.2
  if c = 0 then (l.1 : Int) - (r.1 : Int) else c

/-- The comparator `sortCmp` as a boolean "left sorts no later than right" relation. -/
def sortLe (strCmp : String → String → Int) {ρ : Type} (cols : List (Column ρ))
    (rules : List SortRule) (l r : Nat × ρ) : Bool :=
  decide (sortCmp strCmp cols rules l r ≤ 0)

/-- Insert an element into a list, before the first entry it sorts no later
than.  Helper of `stableSort`. -/
def sortInsert {α : Type} (le : α → α → Bool) (x : α) : List α → List α
  | [] => [x]
  | y :: ys => if le x y then x :: y :: ys else y :: sortInsert le x ys

/-- Stable insertion sort, the model of `Array.prototype.sort` (ECMA-262
requires the sort to be stable). -/
def stableSort {α : Type} (le : α → α → Bool) : List α → List α
  | [] => []
  | x :: xs => sortInsert le x (stableSort le xs)

/-- The `decorated` array after the sorting step of `run` (sorting happens
only when the rule list is non-empty). -/
def sortedDecorated (strCmp : String → String → Int) {ρ : Type}
    (e : QueryEngine ρ) (p : RunParams) : List (Nat × ρ) :=
  if p.sort = [] then filteredDecorated e p
  else stableSort (fun l r => sortLe strCmp e.columns p.sort l r) (filteredDecorated e p)

/-- Model of `Math.ceil(a / b)` for `0 ≤ a`, `0 < b`. -/
def ceilDiv (a b : Int) : Int := (a + b - 1) / b

/-- Model of `QueryEngine.run` (QueryEngine.js lines 59-136): filter, sort, then
paginate.  `strCmp` is the abstract locale comparison threaded to the sort. -/
def QueryEngine.run (strCmp : String → String → Int) {ρ : Type}
    (e : QueryEngine ρ) (p : RunParams) : RunResult ρ :=
  let filteredRows := (sortedDecorated strCmp e p).map Prod.snd
  let filteredCount := filteredRows.length
  if p.pagination = false then
    { rows := filteredRows
      filteredCount := filteredCount
      totalCount := e.rows.length
      totalPages := if filteredCount = 0 then 0 else 1
      page := 0 }
  else
    let safePageSize : Int := if 0 < p.pageSize then p.pageSize else 25
    let totalPages : Int :=
      if filteredCount = 0 then 0 else ceilDiv filteredCount safePageSize
    let safePage : Int :=
      if totalPages = 0 then 0 else min (max p.page 0) (totalPages - 1)
    let start := safePage * safePageSize
    { rows := (filteredRows.drop start.toNat).take safePageSize.toNat
      filteredCount := filteredCount
      totalCount := e.rows.length
      totalPages := totalPages
      page := safePage }

/-! ### Basic properties of the stable sort model -/

theorem sortInsert_perm {α : Type} (le : α → α → Bool) (x : α) (l : List α) :
    (sortInsert le x l).Perm (x :: l) := by
  induction l with
  | nil => simp [sortInsert]
  | cons y ys ih =>
    by_cases h : le x y = true
    · simp [sortInsert, h]
    · simp only [sortInsert, h, if_false, Bool.false_eq_true]
      exact (ih.cons y).trans (List.Perm.swap x y ys)

theorem stableSort_perm {α : Type} (le : α → α → Bool) (l : List α) :
    (stableSort le l).Perm l := by
  induction l with
  | nil => simp [stableSort]
  | cons x xs ih =>
    exact (sortInsert_perm le x (stableSort le xs)).trans (ih.cons x)

theorem mem_stableSort {α : Type} (le : α → α → Bool) (l : List α) (a : α) :
    a ∈ stableSort le l ↔ a ∈ l :=
  (stableSort_perm le l).mem_iff

/-- Inserting `x` preserves pairwise `P` provided `P` relates `x` correctly to
the elements it stops before (`hstop`), the elements it passes (`hpass`), and
elements reached transitively through the stopping point (`htrans`). -/
theorem pairwise_sortInsert {α : Type} (le : α → α → Bool) (P : α → α → Prop)
    (x : α) (l : List α) (hl : l.Pairwise P)
    (hstop : ∀ y ∈ l, le x y = true → P x y)
    (hpass : ∀ y ∈ l, le x y = false → P y x)
    (htrans : ∀ y ∈ l, ∀ z ∈ l, le x y = true → P y z → P x z) :
    (sortInsert le x l).Pairwise P := by
  induction l with
  | nil => simp [sortInsert]
  | cons y ys ih =>
    rcases List.pairwise_cons.mp hl with ⟨hy_all, hys⟩
    by_cases h : le x y = true
    · simp only [sortInsert, h, if_true]
      refine List.pairwise_cons.mpr ⟨?_, hl⟩
      intro b hb
      rcases List.mem_cons.mp hb with rfl | hb
      · exact hstop b (List.mem_cons_self _ _) h
      · exact htrans y (List.mem_cons_self _ _) b (List.mem_cons_of_mem _ hb) h
          (hy_all b hb)
    · have hf : le x y = false := by simpa using h
      simp only [sortInsert, h, if_false, Bool.false_eq_true]
      refine List.pairwise_cons.mpr ⟨?_, ?_⟩
      · intro b hb
        rcases List.mem_cons.mp ((sortInsert_perm le x ys).mem_iff.mp hb) with rfl | h1
        · exact hpass y (List.mem_cons_self _ _) hf
        · exact hy_all b h1
      · exact ih hys
          (fun z hz hle => hstop z (List.mem_cons_of_mem _ hz) hle)
          (fun z hz hle => hpass z (List.mem_cons_of_mem _ hz) hle)
          (fun z hz w hw hle hp =>
            htrans z (List.mem_cons_of_mem _ hz) w (List.mem_cons_of_mem _ hw) hle hp)

/-- The stable sort produces a `P`-pairwise list whenever the boolean
comparator interacts with `P` as in `pairwise_sortInsert`, with all
hypotheses local to the members of the input list. -/
theorem pairwise_stableSort {α : Type} (le : α → α → Bool) (P : α → α → Prop)
    (l : List α)
    (hstop : ∀ x ∈ l, ∀ y ∈ l, le x y = true → P x y)
    (hpass : ∀ x ∈ l, ∀ y ∈ l, le x y = false → P y x)
    (htrans : ∀ x ∈ l, ∀ y ∈ l, ∀ z ∈ l, le x y = true → P y z → P x z) :
    (stableSort le l).Pairwise P := by
  induction l with
  | nil => simp [stableSort]
  | cons x xs ih =>
    have hmem : ∀ y ∈ stableSort le xs, y ∈ xs :=
      fun y hy => (mem_stableSort le xs y).mp hy
    have hx : x ∈ x :: xs := List.mem_cons_self _ _
    refine pairwise_sortInsert le P x (stableSort le xs) ?_ ?_ ?_ ?_
    · exact ih
        (fun a ha b hb => hstop a (List.mem_cons_of_mem _ ha) b (List.mem_cons_of_mem _ hb))
        (fun a ha b hb => hpass a (List.mem_cons_of_mem _ ha) b (List.mem_cons_of_mem _ hb))
        (fun a ha b hb c hc => htrans a (List.mem_cons_of_mem _ ha)
          b (List.mem_cons_of_mem _ hb) c (List.mem_cons_of_mem _ hc))
    · exact fun y hy => hstop x hx y (List.mem_cons_of_mem _ (hmem y hy))
    · exact fun y hy => hpass x hx y (List.mem_cons_of_mem _ (hmem y hy))
    · exact fun y hy z hz => htrans x hx y (List.mem_cons_of_mem _ (hmem y hy))
        z (List.mem_cons_of_mem _ (hmem z hz))

/-! ### The decorated list: original indices and the filter -/

theorem pairwise_fst_lt_enumFrom {α : Type} (n : Nat) (l : List α) :
    (List.enumFrom n l).Pairwise (fun a b => a.1 < b.1) := by
  induction l generalizing n with
  | nil => simp
  | cons x xs ih =>
    rw [List.enumFrom_cons]
    refine List.pairwise_cons.mpr ⟨?_, ih (n + 1)⟩
    intro b hb
    have hb' : (b.1, b.2) ∈ List.enumFrom (n + 1) xs := by simpa using hb
    have := (List.mem_enumFrom hb').1
    simpa using Nat.lt_of_succ_le this

theorem pairwise_fst_lt_filteredDecorated {ρ : Type} (e : QueryEngine ρ)
    (p : RunParams) :
    (filteredDecorated e p).Pairwise (fun a b => a.1 < b.1) := by
  unfold filteredDecorated
  exact (pairwise_fst_lt_enumFrom 0 e.rows).filter _

theorem map_snd_filter_enumFrom {α : Type} (f : α → Bool) (n : Nat) (l : List α) :
    ((List.enumFrom n l).filter (fun p => f p.2)).map Prod.snd = l.filter f := by
  induction l generalizing n with
  | nil => simp
  | cons x xs ih =>
    rw [List.enumFrom_cons]
    by_cases h : f x = true
    · simp [List.filter_cons, h, ih]
    · simp only [Bool.not_eq_true] at h
      simp [List.filter_cons, h, ih]

theorem filteredDecorated_map_snd {ρ : Type} (e : QueryEngine ρ) (p : RunParams) :
    (filteredDecorated e p).map Prod.snd =
      e.rows.filter
        (fun row =>
          if searchValue e p.search = "" then true
          else rowMatches e row (searchValue e p.search)) := by
  unfold filteredDecorated
  exact map_snd_filter_enumFrom
    (fun row =>
      if searchValue e p.search = "" then true
      else rowMatches e row (searchValue e p.search)) 0 e.rows

theorem sortedDecorated_perm (strCmp : String → String → Int) {ρ : Type}
    (e : QueryEngine ρ) (p : RunParams) :
    (sortedDecorated strCmp e p).Perm (filteredDecorated e p) := by
  unfold sortedDecorated
  split
  · exact List.Perm.refl _
  · exact stableSort_perm _ _

/-! ### Claim C3: the search filter -/

/-- C3: for every engine, search term and sort rules, a row is in
`QueryEngine.run`'s filtered result (pagination disabled, so the result is the
whole filtered list) iff it is one of the engine's rows and either the
normalized needle is empty (every row is retained) or at least one searchable
column's text-coerced value — both sides lower-cased when `caseSensitive` is
false — contains the needle as a substring. -/
theorem run_search_filter (strCmp : String → String → Int) {ρ : Type}
    (e : QueryEngine ρ) (s : String) (rules : List SortRule) (pg psz : Int)
    (r : ρ) :
    r ∈ (QueryEngine.run strCmp e
          { search := s, sort := rules, page := pg, pageSize := psz,
            pagination := false }).rows ↔
      r ∈ e.rows ∧
        (searchValue e s = "" ∨
          ∃ c ∈ e.columns, c.searchable = true ∧
            columnMatches e c r (searchValue e s) = true) := by
  have h1 : (QueryEngine.run strCmp e
      { search := s, sort := rules, page := pg, pageSize := psz,
        pagination := false }).rows =
      (sortedDecorated strCmp e
        { search := s, sort := rules, page := pg, pageSize := psz,
          pagination := false }).map Prod.snd := by
    simp [QueryEngine.run]
  rw [h1]
  rw [((sortedDecorated_perm strCmp e _).map Prod.snd).mem_iff,
    filteredDecorated_map_snd, List.mem_filter]
  show r ∈ e.rows ∧
      (if searchValue e s = "" then true
        else rowMatches e r (searchValue e s)) = true ↔ _
  constructor
  · rintro ⟨hr, hpred⟩
    refine ⟨hr, ?_⟩
    by_cases hsv : searchValue e s = ""
    · exact Or.inl hsv
    · right
      rw [if_neg hsv] at hpred
      unfold rowMatches at hpred
      rw [List.any_eq_true] at hpred
      obtain ⟨c, hc, hm⟩ := hpred
      rw [List.mem_filter] at hc
      exact ⟨c, hc.1, hc.2, hm⟩
  · rintro ⟨hr, hor⟩
    refine ⟨hr, ?_⟩
    by_cases hsv : searchValue e s = ""
    · rw [if_pos hsv]
    · rw [if_neg hsv]
      rcases hor with h | ⟨c, hc, hsea, hm⟩
      · exact absurd h hsv
      · unfold rowMatches
        rw [List.any_eq_true]
        exact ⟨c, List.mem_filter.mpr ⟨hc, hsea⟩, hm⟩

/-! ### Claim C4: pagination -/

theorem run_pagination_true_eq (strCmp : String → String → Int) {ρ : Type}
    (e : QueryEngine ρ) (p : RunParams) (hp : p.pagination = true)
    (hps : 0 < p.pageSize) :
    QueryEngine.run strCmp e p =
      (let L := (sortedDecorated strCmp e p).map Prod.snd
       let tp : Int := if L.length = 0 then 0 else ceilDiv L.length p.pageSize
       let sp : Int := if tp = 0 then 0 else min (max p.page 0) (tp - 1)
       { rows := (L.drop (sp * p.pageSize).toNat).take p.pageSize.toNat
         filteredCount := L.length
         totalCount := e.rows.length
         totalPages := tp
         page := sp }) := by
  simp only [QueryEngine.run, hp, Bool.true_eq_false, if_false, hps, if_pos]

/-- C4: with pagination enabled and `pageSize > 0`, `run` returns
`totalPages = ceil(filteredCount / pageSize)` (which is 0 when the filtered
list is empty), a returned page equal to `max 0 (min requested (totalPages-1))`,
and exactly the corresponding slice of the filtered list; with pagination
disabled it returns the whole filtered list with page 0 and `totalPages`
0 when empty, else 1. -/
theorem run_pagination_clamp (strCmp : String → String → Int) {ρ : Type}
    (e : QueryEngine ρ) (s : String) (rules : List SortRule) (pg psz : Int)
    (hpsz : 0 < psz) :
    (QueryEngine.run strCmp e
        { search := s, sort := rules, page := pg, pageSize := psz,
          pagination := true }).totalPages =
      ceilDiv ((QueryEngine.run strCmp e
        { search := s, sort := rules, page := pg, pageSize := psz,
          pagination := false }).rows).length psz
    ∧ (QueryEngine.run strCmp e
        { search := s, sort := rules, page := pg, pageSize := psz,
          pagination := true }).page =
      max 0 (min pg ((QueryEngine.run strCmp e
        { search := s, sort := rules, page := pg, pageSize := psz,
          pagination := true }).totalPages - 1))
    ∧ (QueryEngine.run strCmp e
        { search := s, sort := rules, page := pg, pageSize := psz,
          pagination := true }).rows =
      (((QueryEngine.run strCmp e
          { search := s, sort := rules, page := pg, pageSize := psz,
            pagination := false }).rows).drop
        ((QueryEngine.run strCmp e
          { search := s, sort := rules, page := pg, pageSize := psz,
            pagination := true }).page * psz).toNat).take psz.toNat
    ∧ (QueryEngine.run strCmp e
        { search := s, sort := rules, page := pg, pageSize := psz,
          pagination := false }).rows =
      (sortedDecorated strCmp e
        { search := s, sort := rules, page := pg, pageSize := psz,
          pagination := false }).map Prod.snd
    ∧ (QueryEngine.run strCmp e
        { search := s, sort := rules, page := pg, pageSize := psz,
          pagination := false }).page = 0
    ∧ (QueryEngine.run strCmp e
        { search := s, sort := rules, page := pg, pageSize := psz,
          pagination := false }).totalPages =
      (if ((QueryEngine.run strCmp e
          { search := s, sort := rules, page := pg, pageSize := psz,
            pagination := false }).rows).length = 0 then 0 else 1) := by
  have hrw := run_pagination_true_eq strCmp e
    { search := s, sort := rules, page := pg, pageSize := psz,
      pagination := true } rfl hpsz
  have hF : (QueryEngine.run strCmp e
      { search := s, sort := rules, page := pg, pageSize := psz,
        pagination := false }).rows =
      (sortedDecorated strCmp e
        { search := s, sort := rules, page := pg, pageSize := psz,
          pagination := true }).map Prod.snd := rfl
  have hdiv0 : ceilDiv (0 : Int) psz = 0 := by
    unfold ceilDiv
    exact Int.ediv_eq_zero_of_lt (by omega) (by omega)
  refine ⟨?_, ?_, ?_, rfl, rfl, rfl⟩
  · rw [hrw, hF]
    dsimp only
    generalize (sortedDecorated strCmp e
      { search := s, sort := rules, page := pg, pageSize := psz,
        pagination := true }).map Prod.snd = L
    by_cases h0 : L.length = 0
    · simp [h0, hdiv0]
    · simp [h0]
  · rw [hrw]
    dsimp only
    generalize (sortedDecorated strCmp e
      { search := s, sort := rules, page := pg, pageSize := psz,
        pagination := true }).map Prod.snd = L
    by_cases h0 : L.length = 0
    · simp only [h0, if_pos, if_true]
      omega
    · have h1 : (1 : Int) ≤ L.length := by
        have hpos : 0 < L.length := Nat.pos_of_ne_zero h0
        omega
      have htp1 : (1 : Int) ≤ ceilDiv (L.length : Int) psz := by
        unfold ceilDiv
        rw [Int.le_ediv_iff_mul_le hpsz]
        omega
      have htpne : ¬ (ceilDiv (L.length : Int) psz = 0) := by omega
      simp only [h0, if_false, htpne]
      omega
  · rw [hrw, hF]

/-! ### Claim C10: pagination partitions the filtered list -/

theorem flatten_chunks {α : Type} (L : List α) (m : Nat) (n : Nat) :
    ((List.range n).map (fun k => (L.drop (k * m)).take m)).flatten = L.take (n * m) := by
  induction n with
  | zero => simp
  | succ n ih =>
    rw [List.range_succ, List.map_append, List.flatten_append, ih]
    simp only [List.map_cons, List.map_nil, List.flatten_cons, List.flatten_nil,
      List.append_nil]
    rw [Nat.succ_mul, List.take_add]

/-- C10: for `pageSize > 0`, concatenating the pages `0 .. totalPages-1`
returned by `run` yields exactly the filtered-and-sorted list that `run`
returns with pagination disabled, and every page holds at most `pageSize`
rows. -/
theorem run_pagination_partition (strCmp : String → String → Int) {ρ : Type}
    (e : QueryEngine ρ) (s : String) (rules : List SortRule) (psz : Int)
    (hpsz : 0 < psz) :
    ((List.range ((QueryEngine.run strCmp e
          { search := s, sort := rules, page := 0, pageSize := psz,
            pagination := true }).totalPages).toNat).map
        (fun (k : Nat) => (QueryEngine.run strCmp e
          { search := s, sort := rules, page := (k : Int), pageSize := psz,
            pagination := true }).rows)).flatten =
      (QueryEngine.run strCmp e
        { search := s, sort := rules, page := 0, pageSize := psz,
          pagination := false }).rows
    ∧ ∀ pg : Int, ((QueryEngine.run strCmp e
        { search := s, sort := rules, page := pg, pageSize := psz,
          pagination := true }).rows).length ≤ psz.toNat := by
  have hlen2 : ∀ pg : Int, ((QueryEngine.run strCmp e
      { search := s, sort := rules, page := pg, pageSize := psz,
        pagination := true }).rows).length ≤ psz.toNat := by
    intro pg
    rw [run_pagination_true_eq strCmp e
      { search := s, sort := rules, page := pg, pageSize := psz,
        pagination := true } rfl hpsz]
    dsimp only
    rw [List.length_take]
    omega
  refine ⟨?_, hlen2⟩
  have hL : ∀ (pg : Int) (b : Bool), (sortedDecorated strCmp e
      { search := s, sort := rules, page := pg, pageSize := psz,
        pagination := b }).map Prod.snd =
      (sortedDecorated strCmp e
        { search := s, sort := rules, page := 0, pageSize := psz,
          pagination := true }).map Prod.snd := fun _ _ => rfl
  have hF : (QueryEngine.run strCmp e
      { search := s, sort := rules, page := 0, pageSize := psz,
        pagination := false }).rows =
      (sortedDecorated strCmp e
        { search := s, sort := rules, page := 0, pageSize := psz,
          pagination := true }).map Prod.snd := rfl
  rw [hF]
  have htp : (QueryEngine.run strCmp e
      { search := s, sort := rules, page := 0, pageSize := psz,
        pagination := true }).totalPages =
      (if ((sortedDecorated strCmp e
          { search := s, sort := rules, page := 0, pageSize := psz,
            pagination := true }).map Prod.snd).length = 0 then 0
       else ceilDiv (((sortedDecorated strCmp e
          { search := s, sort := rules, page := 0, pageSize := psz,
            pagination := true }).map Prod.snd).length : Int) psz) := by
    rw [run_pagination_true_eq strCmp e
      { search := s, sort := rules, page := 0, pageSize := psz,
        pagination := true } rfl hpsz]
  rw [htp]
  generalize (sortedDecorated strCmp e
    { search := s, sort := rules, page := 0, pageSize := psz,
      pagination := true }).map Prod.snd = L at hL ⊢
  by_cases h0 : L.length = 0
  · have hnil : L = [] := List.length_eq_zero.mp h0
    subst hnil
    simp
  · have h1 : (1 : Int) ≤ L.length := by
      have hpos : 0 < L.length := Nat.pos_of_ne_zero h0
      omega
    have htp1 : (1 : Int) ≤ ceilDiv (L.length : Int) psz := by
      unfold ceilDiv
      rw [Int.le_ediv_iff_mul_le hpsz]
      omega
    have htpne : ¬ (ceilDiv (L.length : Int) psz = 0) := by omega
    rw [if_neg h0]
    have hk : ∀ k : Nat, k ∈ List.range (ceilDiv (L.length : Int) psz).toNat →
        (QueryEngine.run strCmp e
          { search := s, sort := rules, page := (k : Int), pageSize := psz,
            pagination := true }).rows = (L.drop (k * psz.toNat)).take psz.toNat := by
      intro k hkmem
      rw [List.mem_range] at hkmem
      have hki : (k : Int) ≤ ceilDiv (L.length : Int) psz - 1 := by
        have := Int.toNat_of_nonneg (le_of_lt (lt_of_lt_of_le Int.zero_lt_one htp1))
        omega
      rw [run_pagination_true_eq strCmp e
        { search := s, sort := rules, page := (k : Int), pageSize := psz,
          pagination := true } rfl hpsz]
      dsimp only
      rw [hL (k : Int) true]
      rw [if_neg h0, if_neg htpne]
      have hsp : ((k : Int) ⊔ 0) ⊓ (ceilDiv (L.length : Int) psz - 1) = (k : Int) := by
        omega
      rw [hsp]
      have hcast : ((k : Int) * psz) = ((k * psz.toNat : Nat) : Int) := by
        push_cast
        rw [Int.toNat_of_nonneg hpsz.le]
      rw [hcast, Int.toNat_natCast]
    rw [List.map_congr_left hk, flatten_chunks]
    have hbound : L.length ≤ (ceilDiv (L.length : Int) psz).toNat * psz.toNat := by
      have h := Int.ediv_add_emod ((L.length : Int) + psz - 1) psz
      have hr1 := Int.emod_nonneg ((L.length : Int) + psz - 1) (ne_of_gt hpsz)
      have hr2 := Int.emod_lt_of_pos ((L.length : Int) + psz - 1) hpsz
      have key : (L.length : Int) ≤ psz * (((L.length : Int) + psz - 1) / psz) := by
        linarith
      have hcast2 : (((ceilDiv (L.length : Int) psz).toNat * psz.toNat : Nat) : Int)
          = ceilDiv (L.length : Int) psz * psz := by
        push_cast
        rw [Int.toNat_of_nonneg (by omega), Int.toNat_of_nonneg hpsz.le]
      have : (L.length : Int) ≤ (((ceilDiv (L.length : Int) psz).toNat * psz.toNat : Nat) : Int) := by
        rw [hcast2]
        unfold ceilDiv
        linarith
      exact_mod_cast this
    rw [List.take_of_length_le hbound]

/-! ### Claim C2: priority ordering and stability of the sort -/

/-- C2 (amended): when the comparator induced by the sort rules is total and
transitive on the filtered row set (this can fail: `compareValues` reports
`1` in both orders for a `null` key against an `undefined` key), `run`'s
sorted list is a permutation of the filtered decorated list, is pairwise
ordered by the code's comparator — the first rule with a non-zero comparison
decides, the original index breaks ties — and any two entries whose honored
rules all compare equal appear in strictly increasing original-index order
(stability); the unpaginated `run` result is exactly that list's rows. -/
theorem run_sort_ordered_stable (strCmp : String → String → Int) {ρ : Type}
    (e : QueryEngine ρ) (p : RunParams)
    (htot : ∀ x ∈ filteredDecorated e p, ∀ y ∈ filteredDecorated e p,
      sortLe strCmp e.columns p.sort x y = true ∨
      sortLe strCmp e.columns p.sort y x = true)
    (htrans : ∀ x ∈ filteredDecorated e p, ∀ y ∈ filteredDecorated e p,
      ∀ z ∈ filteredDecorated e p,
      sortLe strCmp e.columns p.sort x y = true →
      sortLe strCmp e.columns p.sort y z = true →
      sortLe strCmp e.columns p.sort x z = true) :
    (sortedDecorated strCmp e p).Perm (filteredDecorated e p)
    ∧ (sortedDecorated strCmp e p).Pairwise
        (fun l r => sortLe strCmp e.columns p.sort l r = true)
    ∧ (sortedDecorated strCmp e p).Pairwise
        (fun l r => ruleCmp strCmp e.columns p.sort l.2 r.2 = 0 → l.1 < r.1)
    ∧ (QueryEngine.run strCmp e { p with pagination := false }).rows
        = (sortedDecorated strCmp e p).map Prod.snd := by
  have hperm := sortedDecorated_perm strCmp e p
  have hle : (sortedDecorated strCmp e p).Pairwise
      (fun l r => sortLe strCmp e.columns p.sort l r = true) := by
    unfold sortedDecorated
    split
    · refine (pairwise_fst_lt_filteredDecorated e p).imp ?_
      intro a b hab
      unfold sortLe sortCmp
      rename_i hsortnil
      rw [hsortnil]
      simp only [ruleCmp, if_pos rfl]
      rw [decide_eq_true_eq]
      omega
    · exact pairwise_stableSort _ _ _
        (fun x _ y _ h => h)
        (fun x hx y hy h => by
          rcases htot x hx y hy with h1 | h1
          · rw [h] at h1
            exact absurd h1 (by simp)
          · exact h1)
        (fun x hx y hy z hz h1 h2 => htrans x hx y hy z hz h1 h2)
  have hne : (sortedDecorated strCmp e p).Pairwise (fun l r => l.1 ≠ r.1) := by
    have h1 : ((filteredDecorated e p).map Prod.fst).Pairwise (fun a b => a < b) :=
      List.pairwise_map.mpr (pairwise_fst_lt_filteredDecorated e p)
    have h2 : ((filteredDecorated e p).map Prod.fst).Nodup :=
      h1.imp (fun h => Nat.ne_of_lt h)
    have h3 : ((sortedDecorated strCmp e p).map Prod.fst).Nodup :=
      ((hperm.map Prod.fst).nodup_iff).mpr h2
    exact List.pairwise_map.mp h3
  refine ⟨hperm, hle, ?_, rfl⟩
  refine (hle.and hne).imp ?_
  intro a b hab hrc
  rcases hab with ⟨hab1, hab2⟩
  have h4 : sortCmp strCmp e.columns p.sort a b ≤ 0 := by
    simpa [sortLe] using hab1
  unfold sortCmp at h4
  rw [hrc] at h4
  simp only [if_pos] at h4
  have h5 : (a.1 : Int) - (b.1 : Int) ≤ 0 := by simpa using h4
  omega

/-! ### Claim C1: placement of null/undefined keys -/

theorem compareValues_nullish_left (strCmp : String → String → Int)
    (a b : JSVal) (d : String) (ha : isNullish a = true)
    (hb : isNullish b = false) :
    compareValues strCmp a b d = if d = "asc" then 1 else -1 := by
  have hne : ¬ (a = b) := by
    intro h
    rw [h, hb] at ha
    exact Bool.false_ne_true ha
  unfold compareValues
  rw [if_neg hne, if_pos ha]

theorem compareValues_nullish_right (strCmp : String → String → Int)
    (a b : JSVal) (d : String) (ha : isNullish a = false)
    (hb : isNullish b = true) :
    compareValues strCmp a b d = if d = "asc" then -1 else 1 := by
  have hne : ¬ (a = b) := by
    intro h
    rw [h, hb] at ha
    exact Bool.false_ne_true ha.symm
  unfold compareValues
  rw [if_neg hne, if_neg (by simp [ha]), if_pos hb]

theorem ruleCmp_single (strCmp : String → String → Int) {ρ : Type}
    (cols : List (Column ρ)) (rule : SortRule) (col : Column ρ)
    (hcol : columnById cols rule.id = some col) (hsortable : col.sortable = true)
    (a b : ρ) :
    ruleCmp strCmp cols [rule] a b =
      compareValues strCmp (col.getValue a) (col.getValue b)
        (if rule.direction = "desc" then "desc" else "asc") := by
  simp only [ruleCmp, hcol, hsortable, Bool.true_eq_false, if_false]
  split <;> split <;>
    first
    | rfl
    | (rename_i h
       exact h.symm)

theorem sortLe_of_ruleCmp_ne (strCmp : String → String → Int) {ρ : Type}
    (cols : List (Column ρ)) (rules : List SortRule) (x y : Nat × ρ)
    (h : ruleCmp strCmp cols rules x.2 y.2 ≠ 0) :
    sortLe strCmp cols rules x y =
      decide (ruleCmp strCmp cols rules x.2 y.2 ≤ 0) := by
  unfold sortLe sortCmp
  rw [if_neg h]

/-- C1 (amended): for a sort on a single honored rule, rows whose key is
`null`/`undefined` appear after every row with a non-null key when the
direction is ascending, but *before* every row with a non-null key when the
direction is `"desc"`: the inversion applied to non-null comparisons applies
to null comparisons as well, so nulls are not last in both directions. -/
theorem run_nullish_placement (strCmp : String → String → Int) {ρ : Type}
    (e : QueryEngine ρ) (rule : SortRule) (col : Column ρ) (s : String)
    (pg psz : Int)
    (hcol : columnById e.columns rule.id = some col)
    (hsortable : col.sortable = true) :
    (rule.direction ≠ "desc" →
      ((QueryEngine.run strCmp e
          { search := s, sort := [rule], page := pg, pageSize := psz,
            pagination := false }).rows).Pairwise
        (fun r1 r2 => isNullish (col.getValue r1) = true →
          isNullish (col.getValue r2) = true))
    ∧ (rule.direction = "desc" →
      ((QueryEngine.run strCmp e
          { search := s, sort := [rule], page := pg, pageSize := psz,
            pagination := false }).rows).Pairwise
        (fun r1 r2 => isNullish (col.getValue r1) = false →
          isNullish (col.getValue r2) = false)) := by
  have hrows : (QueryEngine.run strCmp e
      { search := s, sort := [rule], page := pg, pageSize := psz,
        pagination := false }).rows =
      (sortedDecorated strCmp e
        { search := s, sort := [rule], page := pg, pageSize := psz,
          pagination := false }).map Prod.snd := rfl
  have hsd : sortedDecorated strCmp e
      { search := s, sort := [rule], page := pg, pageSize := psz,
        pagination := false } =
      stableSort (fun l r => sortLe strCmp e.columns [rule] l r)
        (filteredDecorated e
          { search := s, sort := [rule], page := pg, pageSize := psz,
            pagination := false }) := by
    unfold sortedDecorated
    rw [if_neg (by simp)]
  constructor
  · intro hd
    have hdir : (if rule.direction = "desc" then "desc" else "asc") = "asc" :=
      if_neg hd
    have key1 : ∀ x y : Nat × ρ, isNullish (col.getValue x.2) = true →
        isNullish (col.getValue y.2) = false →
        sortLe strCmp e.columns [rule] x y = false := by
      intro x y hx hy
      have hr : ruleCmp strCmp e.columns [rule] x.2 y.2 = 1 := by
        rw [ruleCmp_single strCmp e.columns rule col hcol hsortable, hdir,
          compareValues_nullish_left strCmp _ _ _ hx hy]
        rfl
      rw [sortLe_of_ruleCmp_ne strCmp e.columns [rule] x y (by rw [hr]; omega),
        hr]
      rfl
    have key2 : ∀ x y : Nat × ρ, isNullish (col.getValue x.2) = false →
        isNullish (col.getValue y.2) = true →
        sortLe strCmp e.columns [rule] x y = true := by
      intro x y hx hy
      have hr : ruleCmp strCmp e.columns [rule] x.2 y.2 = -1 := by
        rw [ruleCmp_single strCmp e.columns rule col hcol hsortable, hdir,
          compareValues_nullish_right strCmp _ _ _ hx hy]
        rfl
      rw [sortLe_of_ruleCmp_ne strCmp e.columns [rule] x y (by rw [hr]; omega),
        hr]
      rfl
    rw [hrows, hsd, List.pairwise_map]
    refine pairwise_stableSort _ _ _ ?_ ?_ ?_
    · intro x _ y _ hle hx
      cases hqy : isNullish (col.getValue y.2) with
      | true => rfl
      | false => rw [key1 x y hx hqy] at hle; exact absurd hle (by simp)
    · intro x _ y _ hle hy
      cases hqx : isNullish (col.getValue x.2) with
      | true => rfl
      | false => rw [key2 x y hqx hy] at hle; exact absurd hle (by simp)
    · intro x _ y _ z _ hle hyz hx
      cases hqy : isNullish (col.getValue y.2) with
      | true => exact hyz hqy
      | false => rw [key1 x y hx hqy] at hle; exact absurd hle (by simp)
  · intro hd
    have hdir : (if rule.direction = "desc" then "desc" else "asc") = "desc" :=
      if_pos hd
    have hnotasc : ¬ (("desc" : String) = "asc") := by decide
    have key1 : ∀ x y : Nat × ρ, isNullish (col.getValue x.2) = false →
        isNullish (col.getValue y.2) = true →
        sortLe strCmp e.columns [rule] x y = false := by
      intro x y hx hy
      have hr : ruleCmp strCmp e.columns [rule] x.2 y.2 = 1 := by
        rw [ruleCmp_single strCmp e.columns rule col hcol hsortable, hdir,
          compareValues_nullish_right strCmp _ _ _ hx hy, if_neg hnotasc]
      rw [sortLe_of_ruleCmp_ne strCmp e.columns [rule] x y (by rw [hr]; omega),
        hr]
      rfl
    have key2 : ∀ x y : Nat × ρ, isNullish (col.getValue x.2) = true →
        isNullish (col.getValue y.2) = false →
        sortLe strCmp e.columns [rule] x y = true := by
      intro x y hx hy
      have hr : ruleCmp strCmp e.columns [rule] x.2 y.2 = -1 := by
        rw [ruleCmp_single strCmp e.columns rule col hcol hsortable, hdir,
          compareValues_nullish_left strCmp _ _ _ hx hy, if_neg hnotasc]
      rw [sortLe_of_ruleCmp_ne strCmp e.columns [rule] x y (by rw [hr]; omega),
        hr]
      rfl
    rw [hrows, hsd, List.pairwise_map]
    refine pairwise_stableSort _ _ _ ?_ ?_ ?_
    · intro x _ y _ hle hx
      cases hqy : isNullish (col.getValue y.2) with
      | false => rfl
      | true => rw [key1 x y hx hqy] at hle; exact absurd hle (by simp)
    · intro x _ y _ hle hy
      cases hqx : isNullish (col.getValue x.2) with
      | false => rfl
      | true => rw [key2 x y hqx hy] at hle; exact absurd hle (by simp)
    · intro x _ y _ z _ hle hyz hx
      cases hqy : isNullish (col.getValue y.2) with
      | false => exact hyz hqy
      | true => rw [key1 x y hx hqy] at hle; exact absurd hle (by simp)

/-! ### Virtual window (`#computeVirtualWindow` in BetterDataTable.js,
`clamp` in utils.js) -/

/-- Model of `clamp(value, min, max)` from src/core/utils.js:
`Math.max(min, Math.min(max, value))`. -/
def clamp (value lo hi : Int) : Int := max lo (min hi value)

/-- The `virtualization` options block, with the source defaults. -/
structure VirtualizationOptions where
  enabled : Bool := true
  height : Int := 420
  rowHeight : Int := 40
  overscan : Int := 8

/-- The record returned by `#computeVirtualWindow`. -/
structure VirtualWindow (ρ : Type) where
  visibleRows : List ρ
  startRowIndex : Int
  endRowIndex : Int
  topPad : Int
  bottomPad : Int

/-- Model of `BetterDataTable.#computeVirtualWindow` (BetterDataTable.js lines
650-679).  `pageRows.slice(start, end)` becomes drop/take; `/` on `Int` is
floor division for the positive divisor, matching `Math.floor`. -/
def computeVirtualWindow {ρ : Type} (opts : VirtualizationOptions)
    (pageRows : List ρ) (scrollTop : Int) : VirtualWindow ρ :=
  if opts.enabled = false then
    { visibleRows := pageRows
      startRowIndex := 0
      endRowIndex := pageRows.length
      topPad := 0
      bottomPad := 0 }
  else
    let rowHeight := max 24 opts.rowHeight
    let overscan := max 1 opts.overscan
    let viewportHeight := max rowHeight opts.height
    let rowsPerViewport := ceilDiv viewportHeight rowHeight
    let maxStart := max 0 ((pageRows.length : Int) - rowsPerViewport)
    let startRowIndex := clamp (scrollTop / rowHeight - overscan) 0 maxStart
    let endRowIndex := clamp (startRowIndex + rowsPerViewport + overscan * 2) 0
      (pageRows.length : Int)
    { visibleRows := (pageRows.drop startRowIndex.toNat).take
        (endRowIndex - startRowIndex).toNat
      startRowIndex := startRowIndex
      endRowIndex := endRowIndex
      topPad := startRowIndex * rowHeight
      bottomPad := max 0 (((pageRows.length : Int) - endRowIndex) * rowHeight) }

/-- The four window quantities of the virtual window. -/
structure SpecWindow where
  startRowIndex : Int
  endRowIndex : Int
  topPad : Int
  bottomPad : Int
deriving DecidableEq, Repr

/-- The window formulas exactly as the specification words them (claim C5):
`rowsPerViewport = ceil(viewportHeight / rowHeight)`,
`startRowIndex = clamp(floor(scrollTop / rowHeight) - overscan, 0, max(0, rowCount - rowsPerViewport))`,
`endRowIndex = clamp(startRowIndex + rowsPerViewport + 2*overscan, 0, rowCount)`,
`topPad = startRowIndex * rowHeight`,
`bottomPad = max(0, (rowCount - endRowIndex) * rowHeight)`.
This definition follows the spec's words, to be compared with
`computeVirtualWindow`. -/
def specVirtualWindow (rowCount scrollTop rowHeight overscan
    viewportHeight : Int) : SpecWindow :=
  let rowsPerViewport := ceilDiv viewportHeight rowHeight
  let startRowIndex := clamp (scrollTop / rowHeight - overscan) 0
    (max 0 (rowCount - rowsPerViewport))
  let endRowIndex := clamp (startRowIndex + rowsPerViewport + 2 * overscan) 0
    rowCount
  { startRowIndex := startRowIndex
    endRowIndex := endRowIndex
    topPad := startRowIndex * rowHeight
    bottomPad := max 0 ((rowCount - endRowIndex) * rowHeight) }

/-- C5 (amended): with virtualization enabled, the computed window equals the
spec's formulas evaluated at the *effective* parameters — row height floored
at 24, overscan floored at 1 and viewport height floored at the (effective)
row height — and the visible rows are the corresponding slice of the page
rows. -/
theorem computeVirtualWindow_spec_formulas {ρ : Type}
    (opts : VirtualizationOptions) (pageRows : List ρ) (scrollTop : Int)
    (henabled : opts.enabled = true) :
    (computeVirtualWindow opts pageRows scrollTop).startRowIndex =
      (specVirtualWindow (pageRows.length : Int) scrollTop
        (max 24 opts.rowHeight) (max 1 opts.overscan)
        (max (max 24 opts.rowHeight) opts.height)).startRowIndex
    ∧ (computeVirtualWindow opts pageRows scrollTop).endRowIndex =
      (specVirtualWindow (pageRows.length : Int) scrollTop
        (max 24 opts.rowHeight) (max 1 opts.overscan)
        (max (max 24 opts.rowHeight) opts.height)).endRowIndex
    ∧ (computeVirtualWindow opts pageRows scrollTop).topPad =
      (specVirtualWindow (pageRows.length : Int) scrollTop
        (max 24 opts.rowHeight) (max 1 opts.overscan)
        (max (max 24 opts.rowHeight) opts.height)).topPad
    ∧ (computeVirtualWindow opts pageRows scrollTop).bottomPad =
      (specVirtualWindow (pageRows.length : Int) scrollTop
        (max 24 opts.rowHeight) (max 1 opts.overscan)
        (max (max 24 opts.rowHeight) opts.height)).bottomPad
    ∧ (computeVirtualWindow opts pageRows scrollTop).visibleRows =
      (pageRows.drop
        (computeVirtualWindow opts pageRows scrollTop).startRowIndex.toNat).take
        ((computeVirtualWindow opts pageRows scrollTop).endRowIndex -
          (computeVirtualWindow opts pageRows scrollTop).startRowIndex).toNat := by
  unfold computeVirtualWindow specVirtualWindow
  rw [henabled]
  simp only [Bool.true_eq_false, if_false]
  refine ⟨trivial, ?_, trivial, ?_, trivial⟩
  · rw [Int.mul_comm (max 1 opts.overscan) 2]
  · rw [Int.mul_comm (max 1 opts.overscan) 2]

/-- C6: for every options block (virtualization enabled or not), page-row
list and scroll offset, the computed window satisfies
`0 ≤ startRowIndex ≤ endRowIndex ≤ rowCount` and
`topPad + (endRowIndex - startRowIndex) * rowHeight + bottomPad
  = rowCount * rowHeight` with `rowHeight` the effective (floored) row
height, so the padding keeps the total scrollable height constant. -/
theorem computeVirtualWindow_invariant {ρ : Type}
    (opts : VirtualizationOptions) (pageRows : List ρ) (scrollTop : Int) :
    0 ≤ (computeVirtualWindow opts pageRows scrollTop).startRowIndex
    ∧ (computeVirtualWindow opts pageRows scrollTop).startRowIndex ≤
      (computeVirtualWindow opts pageRows scrollTop).endRowIndex
    ∧ (computeVirtualWindow opts pageRows scrollTop).endRowIndex ≤
      (pageRows.length : Int)
    ∧ (computeVirtualWindow opts pageRows scrollTop).topPad
      + ((computeVirtualWindow opts pageRows scrollTop).endRowIndex -
          (computeVirtualWindow opts pageRows scrollTop).startRowIndex)
        * (max 24 opts.rowHeight)
      + (computeVirtualWindow opts pageRows scrollTop).bottomPad
      = (pageRows.length : Int) * (max 24 opts.rowHeight) := by
  unfold computeVirtualWindow
  by_cases he : opts.enabled = false
  · rw [if_pos he]
    dsimp only
    refine ⟨le_refl 0, Int.natCast_nonneg _, le_refl _, by ring⟩
  · rw [if_neg he]
    dsimp only
    unfold clamp ceilDiv
    have hlen : (0 : Int) ≤ (pageRows.length : Int) := Int.natCast_nonneg _
    have hrh : (0 : Int) < max 24 opts.rowHeight := by
      have : (24 : Int) ≤ max 24 opts.rowHeight := le_max_left _ _
      omega
    have hvh : (0 : Int) ≤ max (max 24 opts.rowHeight) opts.height := by
      have := le_max_left (max 24 opts.rowHeight) opts.height
      omega
    have hrpv : (0 : Int) ≤
        (max (max 24 opts.rowHeight) opts.height + max 24 opts.rowHeight - 1) /
          max 24 opts.rowHeight :=
      Int.ediv_nonneg (by omega) (by omega)
    generalize (max (max 24 opts.rowHeight) opts.height + max 24 opts.rowHeight
        - 1) / max 24 opts.rowHeight = rpv at hrpv
    generalize scrollTop / max 24 opts.rowHeight = d
    have hov : (1 : Int) ≤ max 1 opts.overscan := le_max_left _ _
    generalize hovd : max 1 opts.overscan = ov at hov
    generalize hrhd : max 24 opts.rowHeight = rh at hrh
    constructor
    · omega
    constructor
    · omega
    constructor
    · omega
    · have hstart : (0 : Int) ≤ max 0 (min (max 0 ((pageRows.length : Int) - rpv)) (d - ov)) := le_max_left _ _
      have hend_le : max 0 (min (pageRows.length : Int)
          (max 0 (min (max 0 ((pageRows.length : Int) - rpv)) (d - ov)) + rpv + ov * 2)) ≤
          (pageRows.length : Int) := by omega
      have hpad : (0 : Int) ≤ ((pageRows.length : Int) -
          max 0 (min (pageRows.length : Int)
            (max 0 (min (max 0 ((pageRows.length : Int) - rpv)) (d - ov)) + rpv + ov * 2))) * rh :=
        Int.mul_nonneg (by omega) (by omega)
      rw [max_eq_right hpad]
      ring

/-! ### Orchestrator state (BetterDataTable.js): render scheduling and the
server request lifecycle -/

/-- The interaction state (the table's mutable cursor). -/
structure InteractionState where
  search : String := ""
  sort : List SortRule := []
  page : Int := 0
  pageSize : Int := 25
  scrollTop : Int := 0
deriving DecidableEq, Repr

/-- The server snapshot `{ rows, filteredCount, totalCount }`, replaced
wholesale on each accepted response. -/
structure ServerSnapshot (ρ : Type) where
  rows : List ρ := []
  filteredCount : Int := 0
  totalCount : Int := 0

/-- The request object built by `#buildServerQuery`. -/
structure ServerQuery where
  search : String
  sort : List SortRule
  page : Int
  pageSize : Int
deriving DecidableEq, Repr

/-- Model of `#buildServerQuery`. -/
def buildServerQuery (st : InteractionState) : ServerQuery :=
  { search := st.search, sort := st.sort, page := st.page,
    pageSize := st.pageSize }

/-- The lifecycle events of the reload path. -/
inductive TableEvent where
  | beforeQuery (query : ServerQuery) (token : Nat)
  | afterQuery (query : ServerQuery) (token : Nat)
      (rows filteredCount totalCount : Int)
  | errorQuery (token : Nat) (query : ServerQuery)
deriving DecidableEq, Repr

/-- The orchestrator state relevant to render scheduling and server mode.
`renders` records the reason string of each executed render pass,
`scheduleCount` counts animation-frame schedules (`requestAnimationFrame`
calls), and `fetchesIssued` counts invocations of the server `fetch`
collaborator. -/
structure TableState (ρ : Type) where
  state : InteractionState
  serverSnapshot : ServerSnapshot ρ
  requestToken : Nat
  pendingReasons : List String
  renderScheduled : Bool
  scheduleCount : Nat
  renders : List String
  events : List TableEvent
  fetchesIssued : Nat

/-- Model of `this.pendingReasons.add(reason)`: a JS `Set` keeps insertion order and
ignores duplicates. -/
def insertReason (acc : List String) (r : String) : List String :=
  if r ∈ acc then acc else acc ++ [r]

/-- Model of `requestRender(reason)` (BetterDataTable.js lines 1079-1092): record the
reason; if a frame is already scheduled (`renderToken !== null`) return,
otherwise schedule one. -/
def requestRender {ρ : Type} (reason : String) (t : TableState ρ) :
    TableState ρ :=
  if t.renderScheduled then
    { t with pendingReasons := insertReason t.pendingReasons reason }
  else
    { t with pendingReasons := insertReason t.pendingReasons reason
             renderScheduled := true
             scheduleCount := t.scheduleCount + 1 }

/-- The animation-frame callback scheduled by `requestRender`: clear the
token, drain the pending set and execute one render pass whose reason is the
pending reasons joined with `", "`. -/
def fireAnimationFrame {ρ : Type} (t : TableState ρ) : TableState ρ :=
  if t.renderScheduled then
    { t with renderScheduled := false
             pendingReasons := []
             renders := t.renders ++
               [String.intercalate ", " t.pendingReasons] }
  else t

/-- The fetch collaborator's resolved value `{ rows, filteredCount?,
totalCount? }`; `rows := none` models a response whose `rows` field is not
an array. -/
structure FetchResult (ρ : Type) where
  rows : Option (List ρ) := none
  filteredCount : Option Int := none
  totalCount : Option Int := none

/-- Model of `reload` in server mode up to the `await` of the fetch collaborator
(BetterDataTable.js lines 1113-1131): optionally reset the page, build the
query, increment the request token, emit `beforeQuery` and issue the fetch.
Returns the new state and the token captured by this request. -/
def startReload {ρ : Type} (preservePage : Bool) (t : TableState ρ) :
    TableState ρ × Nat :=
  let t1 := if preservePage then t
    else { t with state := { t.state with page := 0 } }
  let token := t1.requestToken + 1
  ({ t1 with
      requestToken := token
      events := t1.events ++ [.beforeQuery (buildServerQuery t1.state) token]
      fetchesIssued := t1.fetchesIssued + 1 }, token)

/-- The continuation of `reload` when the fetch resolves
(`if (token !== this.requestToken) return;` then the snapshot replacement,
`afterQuery` and a render request). -/
def resolveReload {ρ : Type} (token : Nat) (query : ServerQuery)
    (result : FetchResult ρ) (t : TableState ρ) : TableState ρ :=
  if token ≠ t.requestToken then t
  else
    let rows := result.rows.getD []
    let filteredCount := result.filteredCount.getD (rows.length : Int)
    let totalCount := result.totalCount.getD filteredCount
    requestRender "reload"
      { t with
          serverSnapshot :=
            { rows := rows, filteredCount := filteredCount,
              totalCount := totalCount }
          events := t.events ++
            [.afterQuery query token (rows.length : Int) filteredCount
              totalCount] }

/-- The `catch` branch of `reload`: the fetch rejected, so emit an `error`
event of type `query` carrying the failing query and its token — and do
nothing else (no retry, no state change, no render request). -/
def rejectReload {ρ : Type} (token : Nat) (query : ServerQuery)
    (t : TableState ρ) : TableState ρ :=
  { t with events := t.events ++ [.errorQuery token query] }

theorem requestRender_requestToken {ρ : Type} (r : String) (t : TableState ρ) :
    (requestRender r t).requestToken = t.requestToken := by
  unfold requestRender
  split <;> rfl

theorem requestRender_serverSnapshot {ρ : Type} (r : String)
    (t : TableState ρ) :
    (requestRender r t).serverSnapshot = t.serverSnapshot := by
  unfold requestRender
  split <;> rfl

theorem resolveReload_stale {ρ : Type} (token : Nat) (query : ServerQuery)
    (result : FetchResult ρ) (t : TableState ρ) (h : token ≠ t.requestToken) :
    resolveReload token query result t = t := by
  unfold resolveReload
  rw [if_pos h]

theorem resolveReload_requestToken {ρ : Type} (token : Nat)
    (query : ServerQuery) (result : FetchResult ρ) (t : TableState ρ) :
    (resolveReload token query result t).requestToken = t.requestToken := by
  unfold resolveReload
  split
  · rfl
  · rw [requestRender_requestToken]

/-! ### Claim C7: stale server responses are discarded -/

/-- C7: issue two reloads with captured tokens T1 then T2 and let T1's fetch
resolve after T2's: T1 < T2, the snapshot after T2's resolution is exactly
T2's result, and applying T1's late response changes nothing at all (same
snapshot, no render request, no events) — last-request-wins. -/
theorem reload_stale_response_discarded {ρ : Type} (t0 : TableState ρ)
    (q1 q2 : ServerQuery) (r1 r2 : FetchResult ρ) :
    (startReload true t0).2 < (startReload true (startReload true t0).1).2
    ∧ (resolveReload (startReload true (startReload true t0).1).2 q2 r2
        (startReload true (startReload true t0).1).1).serverSnapshot =
      { rows := r2.rows.getD []
        filteredCount := r2.filteredCount.getD ((r2.rows.getD []).length : Int)
        totalCount := r2.totalCount.getD
          (r2.filteredCount.getD ((r2.rows.getD []).length : Int)) }
    ∧ resolveReload (startReload true t0).2 q1 r1
        (resolveReload (startReload true (startReload true t0).1).2 q2 r2
          (startReload true (startReload true t0).1).1) =
      resolveReload (startReload true (startReload true t0).1).2 q2 r2
        (startReload true (startReload true t0).1).1 := by
  have hne2 : ¬ ((startReload true (startReload true t0).1).2 ≠
      (startReload true (startReload true t0).1).1.requestToken) :=
    fun h => h rfl
  refine ⟨?_, ?_, ?_⟩
  · show t0.requestToken + 1 < t0.requestToken + 1 + 1
    omega
  · show (resolveReload _ q2 r2 _).serverSnapshot = _
    unfold resolveReload
    rw [if_neg hne2, requestRender_serverSnapshot]
  · refine resolveReload_stale _ _ _ _ ?_
    rw [resolveReload_requestToken]
    show t0.requestToken + 1 ≠ t0.requestToken + 1 + 1
    omega

/-! ### Claim C8: render coalescing -/

theorem foldl_insertReason_nodup (l : List String) (acc : List String)
    (h : acc.Nodup) : (l.foldl insertReason acc).Nodup := by
  induction l generalizing acc with
  | nil => exact h
  | cons r rs ih =>
    simp only [List.foldl_cons]
    refine ih _ ?_
    unfold insertReason
    split
    · exact h
    · rename_i hmem
      simp [List.nodup_append, h, hmem]

theorem mem_foldl_insertReason (l : List String) (acc : List String)
    (x : String) : x ∈ l.foldl insertReason acc ↔ x ∈ acc ∨ x ∈ l := by
  induction l generalizing acc with
  | nil => simp
  | cons r rs ih =>
    simp only [List.foldl_cons, ih]
    unfold insertReason
    split
    · rename_i hmem
      simp only [List.mem_cons]
      constructor
      · rintro (h1 | h1)
        · exact Or.inl h1
        · exact Or.inr (Or.inr h1)
      · rintro (h1 | rfl | h1)
        · exact Or.inl h1
        · exact Or.inl hmem
        · exact Or.inr h1
    · simp only [List.mem_append, List.mem_cons, List.mem_singleton]
      tauto

theorem requestRender_scheduled_eq {ρ : Type} (r : String) (t : TableState ρ)
    (h : t.renderScheduled = true) :
    requestRender r t =
      { t with pendingReasons := insertReason t.pendingReasons r } := by
  unfold requestRender
  rw [if_pos h]

theorem foldl_requestRender_scheduled {ρ : Type} (l : List String)
    (t : TableState ρ) (h : t.renderScheduled = true) :
    l.foldl (fun s r => requestRender r s) t =
      { t with pendingReasons := l.foldl insertReason t.pendingReasons } := by
  induction l generalizing t with
  | nil => rfl
  | cons r rs ih =>
    simp only [List.foldl_cons]
    rw [requestRender_scheduled_eq r t h]
    exact ih _ h

/-- C8: starting from an idle scheduler with an empty pending set, a
non-empty burst of synchronous `requestRender` calls schedules exactly one
frame and runs no render yet; firing that frame executes exactly one render
pass whose reason string joins the deduplicated reason tags (in first-seen
order, exactly the tags of the burst), after which the pending set is empty
and the scheduler idle again. -/
theorem requestRender_coalesces {ρ : Type} (t : TableState ρ)
    (l : List String) (hn : l ≠ [])
    (hidle : t.renderScheduled = false) (hempty : t.pendingReasons = []) :
    (l.foldl (fun s r => requestRender r s) t).scheduleCount =
      t.scheduleCount + 1
    ∧ (l.foldl (fun s r => requestRender r s) t).renders = t.renders
    ∧ (l.foldl (fun s r => requestRender r s) t).pendingReasons.Nodup
    ∧ (∀ x, x ∈ (l.foldl (fun s r => requestRender r s) t).pendingReasons ↔
        x ∈ l)
    ∧ (fireAnimationFrame
        (l.foldl (fun s r => requestRender r s) t)).renders =
      t.renders ++ [String.intercalate ", "
        (l.foldl (fun s r => requestRender r s) t).pendingReasons]
    ∧ (fireAnimationFrame
        (l.foldl (fun s r => requestRender r s) t)).pendingReasons = []
    ∧ (fireAnimationFrame
        (l.foldl (fun s r => requestRender r s) t)).renderScheduled = false := by
  obtain ⟨r, rs, rfl⟩ : ∃ r rs, l = r :: rs := by
    cases l with
    | nil => exact absurd rfl hn
    | cons a as => exact ⟨a, as, rfl⟩
  have hstep : requestRender r t = { t with
      pendingReasons := [r]
      renderScheduled := true
      scheduleCount := t.scheduleCount + 1 } := by
    unfold requestRender
    rw [if_neg (by simp [hidle]), hempty]
    rfl
  have hfold : (r :: rs).foldl (fun s x => requestRender x s) t = { t with
      pendingReasons := rs.foldl insertReason [r]
      renderScheduled := true
      scheduleCount := t.scheduleCount + 1 } := by
    simp only [List.foldl_cons]
    rw [hstep, foldl_requestRender_scheduled rs _ rfl]
  rw [hfold]
  refine ⟨rfl, rfl, foldl_insertReason_nodup rs [r] (by simp), ?_, ?_, ?_, ?_⟩
  · intro x
    rw [show ({ t with
        pendingReasons := rs.foldl insertReason [r]
        renderScheduled := true
        scheduleCount := t.scheduleCount + 1 } : TableState ρ).pendingReasons =
      rs.foldl insertReason [r] from rfl]
    rw [mem_foldl_insertReason]
    simp
  · unfold fireAnimationFrame
    rw [if_pos rfl]
  · unfold fireAnimationFrame
    rw [if_pos rfl]
  · unfold fireAnimationFrame
    rw [if_pos rfl]

/-! ### Claim C9: failed server fetches cause no partial update -/

/-- C9: when the fetch collaborator rejects, `reload` emits exactly one
`error` event of type `query` carrying the failed request object and its
token (after the `beforeQuery` of that same request), leaves the interaction
state exactly as it was when the fetch was issued and the server snapshot
exactly as before the reload, requests no render, and issues no further
fetch. -/
theorem reload_failure_no_partial_update {ρ : Type} (t0 : TableState ρ)
    (preservePage : Bool) :
    (rejectReload (startReload preservePage t0).2
        (buildServerQuery (startReload preservePage t0).1.state)
        (startReload preservePage t0).1).state =
      (startReload preservePage t0).1.state
    ∧ (rejectReload (startReload preservePage t0).2
        (buildServerQuery (startReload preservePage t0).1.state)
        (startReload preservePage t0).1).serverSnapshot = t0.serverSnapshot
    ∧ (rejectReload (startReload preservePage t0).2
        (buildServerQuery (startReload preservePage t0).1.state)
        (startReload preservePage t0).1).events =
      t0.events ++
        [.beforeQuery (buildServerQuery (startReload preservePage t0).1.state)
          (startReload preservePage t0).2,
         .errorQuery (startReload preservePage t0).2
          (buildServerQuery (startReload preservePage t0).1.state)]
    ∧ (rejectReload (startReload preservePage t0).2
        (buildServerQuery (startReload preservePage t0).1.state)
        (startReload preservePage t0).1).fetchesIssued =
      t0.fetchesIssued + 1
    ∧ (rejectReload (startReload preservePage t0).2
        (buildServerQuery (startReload preservePage t0).1.state)
        (startReload preservePage t0).1).renders = t0.renders
    ∧ (rejectReload (startReload preservePage t0).2
        (buildServerQuery (startReload preservePage t0).1.state)
        (startReload preservePage t0).1).pendingReasons = t0.pendingReasons
    ∧ (rejectReload (startReload preservePage t0).2
        (buildServerQuery (startReload preservePage t0).1.state)
        (startReload preservePage t0).1).renderScheduled =
      t0.renderScheduled
    ∧ (rejectReload (startReload preservePage t0).2
        (buildServerQuery (startReload preservePage t0).1.state)
        (startReload preservePage t0).1).scheduleCount = t0.scheduleCount := by
  by_cases hp : preservePage <;>
    simp [startReload, rejectReload, buildServerQuery, hp]

/-! ### Concrete instances -/

/-- Concrete accessor over `Nat` rows: row 0 carries `null`, row 100 carries
`undefined`, anything else its own number. -/
def exGetValue (n : Nat) : JSVal :=
  if n = 0 then JSVal.vNull else if n = 100 then JSVal.vUndef else JSVal.vNum n

/-- A concrete sortable, searchable column. -/
def exColumn : Column Nat := { id := "k", getValue := exGetValue }

/-- A concrete one-column engine. -/
def exEngine (rows : List Nat) : QueryEngine Nat :=
  { columns := [exColumn], rows := rows }

/-- A concrete stand-in for the locale comparison. -/
def exStrCmp : String → String → Int := fun _ _ => 0

/-- C1 counterexample: with a descending sort, the row whose key is `null`
comes *first*, before the non-null row — refuting the claim that nulls sort
after non-nulls in both directions. -/
theorem run_nulls_last_desc_counterexample :
    (QueryEngine.run exStrCmp (exEngine [1, 0])
      { search := "", sort := [{ id := "k", direction := "desc" }],
        page := 0, pageSize := 25, pagination := false }).rows = [0, 1]
    ∧ isNullish (exColumn.getValue 0) = true
    ∧ isNullish (exColumn.getValue 1) = false
    ∧ ¬ (((QueryEngine.run exStrCmp (exEngine [1, 0])
        { search := "", sort := [{ id := "k", direction := "desc" }],
          page := 0, pageSize := 25, pagination := false }).rows).Pairwise
      (fun r1 r2 => isNullish (exColumn.getValue r1) = true →
        isNullish (exColumn.getValue r2) = true)) := by
  refine ⟨by decide, by decide, by decide, ?_⟩
  intro h
  have := List.pairwise_cons.mp (by
    have h2 : (QueryEngine.run exStrCmp (exEngine [1, 0])
        { search := "", sort := [{ id := "k", direction := "desc" }],
          page := 0, pageSize := 25, pagination := false }).rows = [0, 1] := by
      decide
    rw [h2] at h
    exact h)
  have h3 := this.1 1 (by decide)
  have h4 := h3 (by decide)
  exact absurd h4 (by decide)

/-- C2 counterexample: with one row keyed `undefined` and one keyed `null`,
`compareValues` answers "greater" in both orders, so no output order is
ordered by the rules: the sorted result is not pairwise comparator-ordered. -/
theorem run_sort_ordered_counterexample :
    ¬ ((sortedDecorated exStrCmp (exEngine [100, 0])
        { search := "", sort := [{ id := "k", direction := "asc" }],
          page := 0, pageSize := 25, pagination := false }).Pairwise
      (fun l r => sortLe exStrCmp [exColumn]
        [{ id := "k", direction := "asc" }] l r = true)) := by
  intro h
  have h2 : sortedDecorated exStrCmp (exEngine [100, 0])
      { search := "", sort := [{ id := "k", direction := "asc" }],
        page := 0, pageSize := 25, pagination := false } = [(1, 0), (0, 100)] := by
    decide
  rw [h2] at h
  have h3 := (List.pairwise_cons.mp h).1 (0, 100) (by decide)
  exact absurd h3 (by decide)

/-- C5 counterexample: at overscan 0 and viewport height 0 the code's window
differs from the spec's formulas taken at the raw overscan and viewport
height (the code floors overscan at 1 and the viewport height at the row
height): start index 4 versus 5. -/
theorem computeVirtualWindow_spec_counterexample :
    (computeVirtualWindow
      { enabled := true, height := 0, rowHeight := 24, overscan := 0 }
      (List.range 20) 120).startRowIndex = 4
    ∧ (specVirtualWindow 20 120 (max 24 24) 0 0).startRowIndex = 5 := by
  constructor
  · decide
  · decide

/-! ### Witnesses -/

/-- Witness for `run_nullish_placement`: its hypotheses hold for the
concrete engine, and the conclusion is obtained at an ascending and at a
descending rule. -/
theorem run_nullish_placement_witness :
    (columnById (exEngine [1, 0, 100, 2]).columns "k" = some exColumn
      ∧ exColumn.sortable = true)
    ∧ ((({ id := "k", direction := "asc" } : SortRule).direction ≠ "desc" →
        ((QueryEngine.run exStrCmp (exEngine [1, 0, 100, 2])
            { search := "", sort := [{ id := "k", direction := "asc" }],
              page := 0, pageSize := 25, pagination := false }).rows).Pairwise
          (fun r1 r2 => isNullish (exColumn.getValue r1) = true →
            isNullish (exColumn.getValue r2) = true))
      ∧ (({ id := "k", direction := "asc" } : SortRule).direction = "desc" →
        ((QueryEngine.run exStrCmp (exEngine [1, 0, 100, 2])
            { search := "", sort := [{ id := "k", direction := "asc" }],
              page := 0, pageSize := 25, pagination := false }).rows).Pairwise
          (fun r1 r2 => isNullish (exColumn.getValue r1) = false →
            isNullish (exColumn.getValue r2) = false)))
    ∧ ((({ id := "k", direction := "desc" } : SortRule).direction ≠ "desc" →
        ((QueryEngine.run exStrCmp (exEngine [1, 0, 100, 2])
            { search := "", sort := [{ id := "k", direction := "desc" }],
              page := 0, pageSize := 25, pagination := false }).rows).Pairwise
          (fun r1 r2 => isNullish (exColumn.getValue r1) = true →
            isNullish (exColumn.getValue r2) = true))
      ∧ (({ id := "k", direction := "desc" } : SortRule).direction = "desc" →
        ((QueryEngine.run exStrCmp (exEngine [1, 0, 100, 2])
            { search := "", sort := [{ id := "k", direction := "desc" }],
              page := 0, pageSize := 25, pagination := false }).rows).Pairwise
          (fun r1 r2 => isNullish (exColumn.getValue r1) = false →
            isNullish (exColumn.getValue r2) = false))) :=
  ⟨⟨rfl, rfl⟩,
   run_nullish_placement exStrCmp (exEngine [1, 0, 100, 2])
     { id := "k", direction := "asc" } exColumn "" 0 25 rfl rfl,
   run_nullish_placement exStrCmp (exEngine [1, 0, 100, 2])
     { id := "k", direction := "desc" } exColumn "" 0 25 rfl rfl⟩

/-- Witness for `run_sort_ordered_stable`: on an all-numeric key set the
comparator is total and transitive, and the conclusion follows. -/
theorem run_sort_ordered_stable_witness :
    (∀ x ∈ filteredDecorated (exEngine [5, 7, 5])
        { search := "", sort := [{ id := "k", direction := "desc" }],
          page := 0, pageSize := 25, pagination := true },
      ∀ y ∈ filteredDecorated (exEngine [5, 7, 5])
        { search := "", sort := [{ id := "k", direction := "desc" }],
          page := 0, pageSize := 25, pagination := true },
      sortLe exStrCmp [exColumn] [{ id := "k", direction := "desc" }] x y = true
      ∨ sortLe exStrCmp [exColumn] [{ id := "k", direction := "desc" }] y x = true)
    ∧ (∀ x ∈ filteredDecorated (exEngine [5, 7, 5])
        { search := "", sort := [{ id := "k", direction := "desc" }],
          page := 0, pageSize := 25, pagination := true },
      ∀ y ∈ filteredDecorated (exEngine [5, 7, 5])
        { search := "", sort := [{ id := "k", direction := "desc" }],
          page := 0, pageSize := 25, pagination := true },
      ∀ z ∈ filteredDecorated (exEngine [5, 7, 5])
        { search := "", sort := [{ id := "k", direction := "desc" }],
          page := 0, pageSize := 25, pagination := true },
      sortLe exStrCmp [exColumn] [{ id := "k", direction := "desc" }] x y = true →
      sortLe exStrCmp [exColumn] [{ id := "k", direction := "desc" }] y z = true →
      sortLe exStrCmp [exColumn] [{ id := "k", direction := "desc" }] x z = true)
    ∧ ((sortedDecorated exStrCmp (exEngine [5, 7, 5])
        { search := "", sort := [{ id := "k", direction := "desc" }],
          page := 0, pageSize := 25, pagination := true }).Perm
      (filteredDecorated (exEngine [5, 7, 5])
        { search := "", sort := [{ id := "k", direction := "desc" }],
          page := 0, pageSize := 25, pagination := true })
    ∧ (sortedDecorated exStrCmp (exEngine [5, 7, 5])
        { search := "", sort := [{ id := "k", direction := "desc" }],
          page := 0, pageSize := 25, pagination := true }).Pairwise
        (fun l r => sortLe exStrCmp [exColumn]
          [{ id := "k", direction := "desc" }] l r = true)
    ∧ (sortedDecorated exStrCmp (exEngine [5, 7, 5])
        { search := "", sort := [{ id := "k", direction := "desc" }],
          page := 0, pageSize := 25, pagination := true }).Pairwise
        (fun l r => ruleCmp exStrCmp [exColumn]
          [{ id := "k", direction := "desc" }] l.2 r.2 = 0 → l.1 < r.1)
    ∧ (QueryEngine.run exStrCmp (exEngine [5, 7, 5])
        { search := "", sort := [{ id := "k", direction := "desc" }],
          page := 0, pageSize := 25, pagination := false }).rows =
      (sortedDecorated exStrCmp (exEngine [5, 7, 5])
        { search := "", sort := [{ id := "k", direction := "desc" }],
          page := 0, pageSize := 25, pagination := true }).map Prod.snd) :=
  ⟨by decide, by decide,
   run_sort_ordered_stable exStrCmp (exEngine [5, 7, 5])
     { search := "", sort := [{ id := "k", direction := "desc" }],
       page := 0, pageSize := 25, pagination := true }
     (by decide) (by decide)⟩

/-- Witness for `run_pagination_clamp` at three rows, page size 2 and
requested page 99. -/
theorem run_pagination_clamp_witness :
    (0 : Int) < 2
    ∧ ((QueryEngine.run exStrCmp (exEngine [1, 2, 3])
        { search := "", sort := [], page := 99, pageSize := 2,
          pagination := true }).totalPages =
      ceilDiv ((QueryEngine.run exStrCmp (exEngine [1, 2, 3])
        { search := "", sort := [], page := 99, pageSize := 2,
          pagination := false }).rows).length 2
    ∧ (QueryEngine.run exStrCmp (exEngine [1, 2, 3])
        { search := "", sort := [], page := 99, pageSize := 2,
          pagination := true }).page =
      max 0 (min 99 ((QueryEngine.run exStrCmp (exEngine [1, 2, 3])
        { search := "", sort := [], page := 99, pageSize := 2,
          pagination := true }).totalPages - 1))
    ∧ (QueryEngine.run exStrCmp (exEngine [1, 2, 3])
        { search := "", sort := [], page := 99, pageSize := 2,
          pagination := true }).rows =
      (((QueryEngine.run exStrCmp (exEngine [1, 2, 3])
          { search := "", sort := [], page := 99, pageSize := 2,
            pagination := false }).rows).drop
        (((QueryEngine.run exStrCmp (exEngine [1, 2, 3])
          { search := "", sort := [], page := 99, pageSize := 2,
            pagination := true }).page * 2).toNat)).take (2 : Int).toNat
    ∧ (QueryEngine.run exStrCmp (exEngine [1, 2, 3])
        { search := "", sort := [], page := 99, pageSize := 2,
          pagination := false }).rows =
      (sortedDecorated exStrCmp (exEngine [1, 2, 3])
        { search := "", sort := [], page := 99, pageSize := 2,
          pagination := false }).map Prod.snd
    ∧ (QueryEngine.run exStrCmp (exEngine [1, 2, 3])
        { search := "", sort := [], page := 99, pageSize := 2,
          pagination := false }).page = 0
    ∧ (QueryEngine.run exStrCmp (exEngine [1, 2, 3])
        { search := "", sort := [], page := 99, pageSize := 2,
          pagination := false }).totalPages =
      (if ((QueryEngine.run exStrCmp (exEngine [1, 2, 3])
          { search := "", sort := [], page := 99, pageSize := 2,
            pagination := false }).rows).length = 0 then 0 else 1)) :=
  ⟨by decide,
   run_pagination_clamp exStrCmp (exEngine [1, 2, 3]) "" [] 99 2 (by decide)⟩

/-- Witness for `computeVirtualWindow_spec_formulas` at the default
virtualization options, fifty rows and scroll offset 400. -/
theorem computeVirtualWindow_spec_formulas_witness :
    ({ enabled := true, height := 420, rowHeight := 40, overscan := 8 } :
      VirtualizationOptions).enabled = true
    ∧ ((computeVirtualWindow
        { enabled := true, height := 420, rowHeight := 40, overscan := 8 }
        (List.range 50) 400).startRowIndex =
      (specVirtualWindow ((List.range 50).length : Int) 400 (max 24 40)
        (max 1 8) (max (max 24 40) 420)).startRowIndex
    ∧ (computeVirtualWindow
        { enabled := true, height := 420, rowHeight := 40, overscan := 8 }
        (List.range 50) 400).endRowIndex =
      (specVirtualWindow ((List.range 50).length : Int) 400 (max 24 40)
        (max 1 8) (max (max 24 40) 420)).endRowIndex
    ∧ (computeVirtualWindow
        { enabled := true, height := 420, rowHeight := 40, overscan := 8 }
        (List.range 50) 400).topPad =
      (specVirtualWindow ((List.range 50).length : Int) 400 (max 24 40)
        (max 1 8) (max (max 24 40) 420)).topPad
    ∧ (computeVirtualWindow
        { enabled := true, height := 420, rowHeight := 40, overscan := 8 }
        (List.range 50) 400).bottomPad =
      (specVirtualWindow ((List.range 50).length : Int) 400 (max 24 40)
        (max 1 8) (max (max 24 40) 420)).bottomPad
    ∧ (computeVirtualWindow
        { enabled := true, height := 420, rowHeight := 40, overscan := 8 }
        (List.range 50) 400).visibleRows =
      ((List.range 50).drop
        (computeVirtualWindow
          { enabled := true, height := 420, rowHeight := 40, overscan := 8 }
          (List.range 50) 400).startRowIndex.toNat).take
        ((computeVirtualWindow
          { enabled := true, height := 420, rowHeight := 40, overscan := 8 }
          (List.range 50) 400).endRowIndex -
         (computeVirtualWindow
          { enabled := true, height := 420, rowHeight := 40, overscan := 8 }
          (List.range 50) 400).startRowIndex).toNat) :=
  ⟨rfl, computeVirtualWindow_spec_formulas
    { enabled := true, height := 420, rowHeight := 40, overscan := 8 }
    (List.range 50) 400 rfl⟩

/-- A concrete fresh table state. -/
def exTable : TableState Nat :=
  { state := {}, serverSnapshot := {}, requestToken := 0, pendingReasons := [],
    renderScheduled := false, scheduleCount := 0, renders := [], events := [],
    fetchesIssued := 0 }

/-- Witness for `requestRender_coalesces` with the burst
`search, page, search`. -/
theorem requestRender_coalesces_witness :
    ((["search", "page", "search"] : List String) ≠ []
      ∧ exTable.renderScheduled = false ∧ exTable.pendingReasons = [])
    ∧ ((["search", "page", "search"].foldl
        (fun s r => requestRender r s) exTable).scheduleCount =
      exTable.scheduleCount + 1
    ∧ (["search", "page", "search"].foldl
        (fun s r => requestRender r s) exTable).renders = exTable.renders
    ∧ (["search", "page", "search"].foldl
        (fun s r => requestRender r s) exTable).pendingReasons.Nodup
    ∧ (∀ x, x ∈ (["search", "page", "search"].foldl
        (fun s r => requestRender r s) exTable).pendingReasons ↔
        x ∈ ["search", "page", "search"])
    ∧ (fireAnimationFrame (["search", "page", "search"].foldl
        (fun s r => requestRender r s) exTable)).renders =
      exTable.renders ++ [String.intercalate ", "
        (["search", "page", "search"].foldl
          (fun s r => requestRender r s) exTable).pendingReasons]
    ∧ (fireAnimationFrame (["search", "page", "search"].foldl
        (fun s r => requestRender r s) exTable)).pendingReasons = []
    ∧ (fireAnimationFrame (["search", "page", "search"].foldl
        (fun s r => requestRender r s) exTable)).renderScheduled = false) :=
  ⟨⟨by decide, rfl, rfl⟩,
   requestRender_coalesces exTable ["search", "page", "search"]
     (by decide) rfl rfl⟩

/-- Witness for `run_pagination_partition` at five rows and page size 2. -/
theorem run_pagination_partition_witness :
    (0 : Int) < 2
    ∧ (((List.range ((QueryEngine.run exStrCmp (exEngine [1, 2, 3, 4, 5])
          { search := "", sort := [], page := 0, pageSize := 2,
            pagination := true }).totalPages).toNat).map
        (fun (k : Nat) => (QueryEngine.run exStrCmp (exEngine [1, 2, 3, 4, 5])
          { search := "", sort := [], page := (k : Int), pageSize := 2,
            pagination := true }).rows)).flatten =
      (QueryEngine.run exStrCmp (exEngine [1, 2, 3, 4, 5])
        { search := "", sort := [], page := 0, pageSize := 2,
          pagination := false }).rows
    ∧ ∀ pg : Int, ((QueryEngine.run exStrCmp (exEngine [1, 2, 3, 4, 5])
        { search := "", sort := [], page := pg, pageSize := 2,
          pagination := true }).rows).length ≤ (2 : Int).toNat) :=
  ⟨by decide,
   run_pagination_partition exStrCmp (exEngine [1, 2, 3, 4, 5]) "" [] 2
     (by decide)⟩

end BDT
